import Mathlib

/-!
Verification of the trireme TCP authentication datapath
(enforcer/datapath_tcp.go and the connection-state file).

The Go code is shallowly embedded as pure Lean functions.  External
collaborators (the token engine, the compiled policy rule sets, the ACL
tables, the service hooks) are passed in as parameter functions, mirroring
the interfaces the Go code calls.  Mutation of connection / PU-context /
cache state is made explicit: every handler returns the updated state
together with its verdict, the reports it emitted to the collector, and
the packet mutations (option/token attach or detach) it performed.
Caches are association lists keyed by the string hashes the Go code uses;
TTL bookkeeping of the caches is not modelled (no claim depends on it).
Wall-clock time is a natural-number parameter measured in milliseconds.
-/

namespace Trireme

/-- Byte strings are lists of naturals. -/
abbrev Bytes := List Nat

/-- A claim set: ordered key/value tag pairs (policy.TagStore). -/
abbrev Tags := List (String × String)

/-- Drop reasons surfaced to the collector (collector package constants). -/
inductive DropReason
  | InvalidToken
  | MissingToken
  | InvalidFormat
  | PolicyDrop
  | InvalidState
deriving DecidableEq, Repr

/-- Reports emitted to the collector by the datapath. -/
inductive Report
  | rejectedFlow (reason : DropReason)
  | acceptedFlow
  | externalServiceFlow
  | reverseExternalServiceFlow
deriving DecidableEq, Repr

/-- PU types (constants package); TransientPU marks the synthesized
context for host-mode unknown inbound SYNs. -/
inductive PUType
  | ContainerPU
  | LinuxProcessPU
  | TransientPU
deriving DecidableEq, Repr

/-- Operational modes (constants package). -/
inductive Mode
  | LocalContainer
  | RemoteContainer
  | LocalServer
deriving DecidableEq, Repr

/-- TCP handshake states of a connection (TCPFlowState). -/
inductive TCPFlowState
  | TCPSynSend
  | TCPSynReceived
  | TCPSynAckSend
  | TCPSynAckReceived
  | TCPAckSend
  | TCPData
deriving DecidableEq, Repr

open TCPFlowState

/-- A flow policy produced by the policy compiler; action is the
policy.ActionType bitmask. -/
structure FlowPolicy where
  action : Nat
  policyID : String
deriving DecidableEq, Repr

/-- policy.Accept bit. -/
def PolicyAccept : Nat := 1

/-- policy.Reject bit. -/
def PolicyReject : Nat := 2

/-- Claims carried inside a token (tokens.ConnectionClaims): the identity
tag set T, and the two connection nonces LCL and RMT. -/
structure ConnectionClaims where
  T : Tags
  LCL : Bytes
  RMT : Bytes
deriving DecidableEq, Repr

/-- AuthInfo keeps authentication information about a connection. -/
structure AuthInfo where
  localContext : Bytes
  remoteContext : Bytes
  localContextID : String
  remoteContextID : String
  remotePublicKey : Option Bytes
deriving DecidableEq, Repr

/-- Result of TokenEngine.CreateAndSign: (token, nonce, err) as the Go
multiple return values. -/
structure SignResult where
  token : Bytes
  nonce : Bytes
  err : Option String
deriving DecidableEq, Repr

/-- Result of TokenEngine.Decode: (claims, nonce, cert, err). -/
structure DecodeResult where
  claims : ConnectionClaims
  nonce : Bytes
  cert : Option Bytes
  err : Option String
deriving DecidableEq, Repr

/-- Result of TokenEngine.Randomize: the re-randomized token bytes (the Go
engine rewrites the nonce in place inside the token buffer), the new
nonce, and the error. -/
structure RandomizeResult where
  token : Bytes
  nonce : Bytes
  err : Option String
deriving DecidableEq, Repr

/-- The token engine collaborator (tokens.TokenEngine).  Its crypto is
external to this repository; it is modelled as an arbitrary function
record satisfying the call signatures the datapath uses. -/
structure TokenEngine where
  createAndSign : Bool → ConnectionClaims → SignResult
  decode : Bool → Bytes → Option Bytes → DecodeResult
  randomize : Bytes → RandomizeResult

/-- An ordered rule set, abstracted by its Search interface: the first
matching policy, if any (lookup tables are compiled outside this repo). -/
abbrev RuleSet := Tags → Option FlowPolicy

/-- An ACL table, abstracted by its GetMatchingAction interface:
(address, port) to a policy or an error. -/
abbrev ACL := String → Nat → Except String FlowPolicy

/-- Per-PU context: identity, rule sets, ACLs, the external-IP cache and
the cached SYN token with its expiration timestamp. -/
structure PUContext where
  puType : PUType
  managementID : String
  identity : Tags
  rejectRcvRules : RuleSet
  acceptRcvRules : RuleSet
  rejectTxtRules : RuleSet
  acceptTxtRules : RuleSet
  networkACLs : ACL
  applicationACLs : ACL
  externalIPCache : List (String × FlowPolicy)
  synToken : Bytes
  synExpiration : Nat

/-- TCPConnection: handshake state, auth info, service flags, the cached
flow policy and a non-owning reference to the owning PU context. -/
structure TCPConnection where
  state : TCPFlowState
  auth : AuthInfo
  serviceConnection : Bool
  timeOut : Nat
  flowPolicy : Option FlowPolicy
  context : Option PUContext

/-- initAuthInfo creates the authentication information for a connection;
the 32-byte random nonce produced by crypto.GenerateRandomBytes is passed
in as a parameter. -/
def initAuthInfo (nonse : Bytes) : AuthInfo :=
  { localContext := nonse
    remoteContext := []
    localContextID := ""
    remoteContextID := ""
    remotePublicKey := none }

/-- NewTCPConnection returns a TCPConnection information struct; the
initial state is TCPSynSend. -/
def NewTCPConnection (nonse : Bytes) : TCPConnection :=
  { state := TCPSynSend
    auth := initAuthInfo nonse
    serviceConnection := false
    timeOut := 0
    flowPolicy := none
    context := none }

/-- The optional pre/post service hooks; external collaborators returning
a pass/fail verdict for a packet. -/
structure ServiceHooks where
  preApp : Bool
  postApp : Bool
  preNet : Bool
  postNet : Bool

/-- A connection cache: association list keyed by a hash string.  TTL
reset on access (GetReset / SetTimeOut) is not modelled. -/
abbrev ConnCache := List (String × TCPConnection)

/-- Cache Get. -/
def cacheGet (c : ConnCache) (k : String) : Option TCPConnection :=
  c.lookup k

/-- Cache AddOrUpdate. -/
def cacheAddOrUpdate (c : ConnCache) (k : String) (v : TCPConnection) : ConnCache :=
  (k, v) :: c.filter (fun kv => kv.1 != k)

/-- Cache Remove. -/
def cacheRemove (c : ConnCache) (k : String) : ConnCache :=
  c.filter (fun kv => kv.1 != k)

/-- The Datapath object: configuration, PU registries and the five
connection caches. -/
structure Datapath where
  mode : Mode
  mutualAuthorization : Bool
  ackSize : Nat
  puFromIP : List (String × PUContext)
  puFromMark : List (String × PUContext)
  puFromPort : List (String × PUContext)
  appOrig : ConnCache
  appReply : ConnCache
  netOrig : ConnCache
  netReply : ConnCache
  sourcePort : ConnCache
  service : Option ServiceHooks

/-- A parsed IPv4/TCP segment.  Operations of the external packet package
(option check, data attach/detach, flow hashes) are represented by
attributes of the packet. -/
structure Packet where
  sourceAddress : String
  destinationAddress : String
  sourcePort : Nat
  destinationPort : Nat
  ipProto : Nat
  tcpFlags : Nat
  mark : String
  hasAuthOption : Bool
  tcpData : Bytes
  detachOk : Bool
  attachOk : Bool
  l4FlowHash : String
  l4ReverseFlowHash : String
  sourcePortHashApp : String
  sourcePortHashNet : String

/-- packet.TCPSynMask. -/
def TCPSynMask : Nat := 2

/-- packet.TCPAckMask. -/
def TCPAckMask : Nat := 16

/-- packet.TCPSynAckMask. -/
def TCPSynAckMask : Nat := 18

/-- packet.TCPAuthenticationOption option kind byte. -/
def TCPAuthenticationOption : Nat := 34

/-- Base length of the auth option: kind + length + 2 reserved bytes. -/
def TCPAuthenticationOptionBaseLen : Nat := 4

/-- Modelled from the spec: the TransmitterLabel claim key (the constant
lives in the enforcer package outside the provided sources); the token
parser requires this label to be present in received identity claims. -/
def TransmitterLabel : String := "AporetoContextID"

/-- Modelled from the spec: the synthetic port label key with an @ prefix
(constant defined in the enforcer package outside the provided sources). -/
def PortNumberLabelString : String := "@port"

/-- Modelled from the spec: the default network key used by contextFromIP
(constant defined outside the provided sources). -/
def DefaultNetwork : String := "0.0.0.0/0"

/-- cgnetcls.Initialmarkval, the global initial mark value (external
package; its concrete value does not matter to any claim). -/
def Initialmarkval : Nat := 100

/-- Tag lookup (TagStore.Get). -/
def tagsGet (t : Tags) (k : String) : Option String :=
  t.lookup k

/-- An empty PU context used as the base of the synthesized transient
context (Go zero value of PUContext). -/
def emptyPUContext : PUContext :=
  { puType := PUType.ContainerPU
    managementID := ""
    identity := []
    rejectRcvRules := fun _ => none
    acceptRcvRules := fun _ => none
    rejectTxtRules := fun _ => none
    acceptTxtRules := fun _ => none
    networkACLs := fun _ _ => Except.error "no match"
    applicationACLs := fun _ _ => Except.error "no match"
    externalIPCache := []
    synToken := []
    synExpiration := 0 }

/-- The transient PU context synthesized for host-mode unknown SYNs. -/
def transientPUContext : PUContext :=
  { emptyPUContext with puType := PUType.TransientPU }

/-- createTCPAuthenticationOption builds the TCP auth option bytes:
kind, length, two reserved zero bytes, then the token (length bytes are
uint8, hence reduced mod 256). -/
def createTCPAuthenticationOption (token : Bytes) : Bytes :=
  let tokenLen := token.length % 256
  [TCPAuthenticationOption, (TCPAuthenticationOptionBaseLen + tokenLen) % 256, 0, 0] ++ token

/-- createAckPacketToken creates the ACK authentication token carrying
both nonces; a signing error is propagated to the caller. -/
def createAckPacketToken (eng : TokenEngine) (auth : AuthInfo) : Except String Bytes :=
  let s := eng.createAndSign true { T := [], LCL := auth.localContext, RMT := auth.remoteContext }
  match s.err with
  | some e => Except.error e
  | none => Except.ok s.token

/-- Combined result of the SYN / SYN-ACK token creators: the returned
token (or error) together with the mutated PU context and auth info. -/
structure SynTokenResult where
  result : Except String Bytes
  ctx : PUContext
  auth : AuthInfo

/-- The fresh-creation tail of createSynPacketToken: sign a new token
over the PU identity, store it and its nonce, and restart the 500 ms
reuse window.  NOTE (faithful to the source): when CreateAndSign fails
the function returns an empty token together with a nil error. -/
def createSynPacketTokenFresh (eng : TokenEngine) (now : Nat) (ctx : PUContext)
    (auth : AuthInfo) : SynTokenResult :=
  let s := eng.createAndSign false { T := ctx.identity, LCL := [], RMT := [] }
  let ctx2 : PUContext := { ctx with synToken := s.token }
  let auth2 : AuthInfo := { auth with localContext := s.nonce }
  match s.err with
  | some _ => { result := Except.ok [], ctx := ctx2, auth := auth2 }
  | none =>
    { result := Except.ok s.token
      ctx := { ctx2 with synExpiration := now + 500 }
      auth := auth2 }

/-- createSynPacketToken: reuse the cached SYN token while it has not
expired and is non-empty, re-randomizing its nonce; otherwise create a
fresh token. -/
def createSynPacketToken (eng : TokenEngine) (now : Nat) (ctx : PUContext)
    (auth : AuthInfo) : SynTokenResult :=
  if now < ctx.synExpiration ∧ ctx.synToken ≠ [] then
    let r := eng.randomize ctx.synToken
    let ctx2 : PUContext := { ctx with synToken := r.token }
    let auth2 : AuthInfo := { auth with localContext := r.nonce }
    match r.err with
    | none => { result := Except.ok r.token, ctx := ctx2, auth := auth2 }
    | some _ => createSynPacketTokenFresh eng now ctx2 auth2
  else createSynPacketTokenFresh eng now ctx auth

/-- createSynAckPacketToken signs identity plus the received remote nonce;
no caching.  NOTE (faithful to the source): a CreateAndSign failure again
yields an empty token with a nil error. -/
def createSynAckPacketToken (eng : TokenEngine) (ctx : PUContext)
    (auth : AuthInfo) : SynTokenResult :=
  let s := eng.createAndSign false { T := ctx.identity, LCL := [], RMT := auth.remoteContext }
  let ctx2 : PUContext := { ctx with synToken := s.token }
  let auth2 : AuthInfo := { auth with localContext := s.nonce }
  match s.err with
  | some _ => { result := Except.ok [], ctx := ctx2, auth := auth2 }
  | none => { result := Except.ok s.token, ctx := ctx2, auth := auth2 }

/-- parsePacketToken decodes a SYN or SYN-ACK token and, on success,
populates remote public key, remote context nonce and remote context ID
in the auth info; the TransmitterLabel claim must be present. -/
def parsePacketToken (eng : TokenEngine) (auth : AuthInfo) (data : Bytes) :
    Except String (ConnectionClaims × AuthInfo) :=
  let r := eng.decode false data auth.remotePublicKey
  match r.err with
  | some e => Except.error e
  | none =>
    match tagsGet r.claims.T TransmitterLabel with
    | none => Except.error "No Transmitter Label "
    | some rid =>
      Except.ok (r.claims,
        { auth with remotePublicKey := r.cert, remoteContext := r.nonce, remoteContextID := rid })

/-- parseAckToken decodes an ACK token and checks that the embedded
nonces match the stored connection contexts (bytes.Compare both ways). -/
def parseAckToken (eng : TokenEngine) (auth : AuthInfo) (data : Bytes) :
    Except String ConnectionClaims :=
  let r := eng.decode true data auth.remotePublicKey
  match r.err with
  | some e => Except.error e
  | none =>
    if r.claims.RMT = auth.localContext ∧ r.claims.LCL = auth.remoteContext then
      Except.ok r.claims
    else Except.error "Failed to match context in ACK packet"

/-- Outcome of an application-side handler: updated datapath state, PU
context and connection, returned action and verdict, attached
(option bytes, payload bytes) if any, reports and conntrack programming. -/
structure AppOutcome where
  d : Datapath
  ctx : PUContext
  conn : TCPConnection
  action : Option FlowPolicy
  errMsg : Option String
  attached : Option (Bytes × Bytes)
  reports : List Report
  conntrack : Bool

/-- Pass outcome: nothing changed, no error. -/
def AppOutcome.pass (d : Datapath) (ctx : PUContext) (conn : TCPConnection) : AppOutcome :=
  { d := d, ctx := ctx, conn := conn, action := none, errMsg := none
    attached := none, reports := [], conntrack := false }

/-- Outcome of a network-side handler; stripped records the option/token
detach performed on the packet. -/
structure NetOutcome where
  d : Datapath
  ctx : PUContext
  conn : TCPConnection
  action : Option FlowPolicy
  claims : Option ConnectionClaims
  errMsg : Option String
  reports : List Report
  stripped : Bool
  conntrack : Bool

/-- Pass outcome: nothing changed, no error. -/
def NetOutcome.pass (d : Datapath) (ctx : PUContext) (conn : TCPConnection) : NetOutcome :=
  { d := d, ctx := ctx, conn := conn, action := none, claims := none, errMsg := none
    reports := [], stripped := false, conntrack := false }

/-- processApplicationSynPacket: short-circuit through the external IP
cache, else create and attach a SYN token and register the connection in
the appOrig and sourcePort caches. -/
def processApplicationSynPacket (d : Datapath) (eng : TokenEngine) (now : Nat)
    (ctx : PUContext) (conn : TCPConnection) (p : Packet) : AppOutcome :=
  match ctx.externalIPCache.lookup (p.destinationAddress ++ ":" ++ toString p.destinationPort) with
  | some plc =>
    { d := { d with
        appOrig := cacheAddOrUpdate d.appOrig p.l4FlowHash conn
        sourcePort := cacheAddOrUpdate d.sourcePort p.sourcePortHashApp conn }
      ctx := ctx, conn := conn, action := some plc, errMsg := none
      attached := none, reports := [], conntrack := false }
  | none =>
    let tcpOptions := createTCPAuthenticationOption []
    let t := createSynPacketToken eng now ctx conn.auth
    match t.result with
    | Except.error e =>
      { d := d, ctx := t.ctx, conn := { conn with auth := t.auth }, action := none
        errMsg := some e, attached := none, reports := [], conntrack := false }
    | Except.ok tcpData =>
      let conn2 : TCPConnection := { conn with auth := t.auth, state := TCPSynSend }
      let d2 : Datapath := { d with
        appOrig := cacheAddOrUpdate d.appOrig p.l4FlowHash conn2
        sourcePort := cacheAddOrUpdate d.sourcePort p.sourcePortHashApp conn2 }
      if p.attachOk then
        { d := d2, ctx := t.ctx, conn := conn2, action := none, errMsg := none
          attached := some (tcpOptions, tcpData), reports := [], conntrack := false }
      else
        { d := d2, ctx := t.ctx, conn := conn2, action := none
          errMsg := some "TCP data attach failed", attached := none
          reports := [], conntrack := false }

/-- processApplicationSynAckPacket: conntrack release for completed
flows, SYN-ACK token creation in SynReceived or SynAckSend, otherwise an
invalid-state error. -/
def processApplicationSynAckPacket (d : Datapath) (eng : TokenEngine)
    (ctx : PUContext) (conn : TCPConnection) (p : Packet) : AppOutcome :=
  if conn.state = TCPData ∧ ¬ conn.serviceConnection = true then
    { d := { d with
        netOrig := cacheRemove d.netOrig p.l4FlowHash
        appReply := cacheRemove d.appReply p.l4ReverseFlowHash }
      ctx := ctx, conn := conn, action := none, errMsg := none
      attached := none, reports := [], conntrack := true }
  else if conn.state = TCPSynReceived ∨ conn.state = TCPSynAckSend then
    let conn2 : TCPConnection := { conn with state := TCPSynAckSend }
    let tcpOptions := createTCPAuthenticationOption []
    let t := createSynAckPacketToken eng ctx conn2.auth
    match t.result with
    | Except.error e =>
      { d := d, ctx := t.ctx, conn := { conn2 with auth := t.auth }, action := none
        errMsg := some e, attached := none, reports := [], conntrack := false }
    | Except.ok tok =>
      let conn3 : TCPConnection := { conn2 with auth := t.auth }
      if p.attachOk then
        { d := d, ctx := t.ctx, conn := conn3, action := none, errMsg := none
          attached := some (tcpOptions, tok), reports := [], conntrack := false }
      else
        { d := d, ctx := t.ctx, conn := conn3, action := none
          errMsg := some "TCP data attach failed", attached := none
          reports := [], conntrack := false }
  else
    { d := d, ctx := ctx, conn := conn, action := none
      errMsg := some "Received SynACK in wrong state", attached := none
      reports := [], conntrack := false }

/-- processApplicationAckPacket: the application-side ACK state machine
(handshake completion, first data segment, duplicate handling). -/
def processApplicationAckPacket (d : Datapath) (eng : TokenEngine)
    (ctx : PUContext) (conn : TCPConnection) (p : Packet) : AppOutcome :=
  if conn.state = TCPData then
    AppOutcome.pass d ctx conn
  else if conn.state = TCPSynAckReceived ∨ conn.state = TCPSynSend then
    match createAckPacketToken eng conn.auth with
    | Except.error e =>
      { d := d, ctx := ctx, conn := conn, action := none, errMsg := some e
        attached := none, reports := [], conntrack := false }
    | Except.ok token =>
      let tcpOptions := createTCPAuthenticationOption []
      if token.length ≠ d.ackSize then
        { d := d, ctx := ctx, conn := conn, action := none
          errMsg := some "Protocol Error", attached := none
          reports := [], conntrack := false }
      else if ¬ p.attachOk = true then
        { d := d, ctx := ctx, conn := conn, action := none
          errMsg := some "TCP data attach failed", attached := none
          reports := [], conntrack := false }
      else
        { d := d, ctx := ctx, conn := { conn with state := TCPAckSend }
          action := none, errMsg := none
          attached := some (tcpOptions, token), reports := []
          conntrack := !conn.serviceConnection && (p.sourceAddress != p.destinationAddress) }
  else if conn.state = TCPAckSend then
    { d := { d with sourcePort := cacheRemove d.sourcePort p.sourcePortHashApp }
      ctx := ctx, conn := { conn with state := TCPData }, action := none
      errMsg := none, attached := none, reports := [], conntrack := false }
  else
    { d := d, ctx := ctx, conn := conn, action := none
      errMsg := some "Received application ACK packet in the wrong state"
      attached := none, reports := [], conntrack := false }

/-- processApplicationTCPPacket dispatches by flag mask. -/
def processApplicationTCPPacket (d : Datapath) (eng : TokenEngine) (now : Nat)
    (ctx : PUContext) (conn : TCPConnection) (p : Packet) : AppOutcome :=
  if p.tcpFlags &&& TCPSynAckMask = TCPSynMask then
    processApplicationSynPacket d eng now ctx conn p
  else if p.tcpFlags &&& TCPSynAckMask = TCPAckMask then
    processApplicationAckPacket d eng ctx conn p
  else if p.tcpFlags &&& TCPSynAckMask = TCPSynAckMask then
    processApplicationSynAckPacket d eng ctx conn p
  else AppOutcome.pass d ctx conn

/-- processNetworkSynPacket: ACL fallback without the auth option, token
parse plus reject-before-accept policy evaluation with it. -/
def processNetworkSynPacket (d : Datapath) (eng : TokenEngine)
    (ctx : PUContext) (conn : TCPConnection) (p : Packet) : NetOutcome :=
  if ¬ p.hasAuthOption = true then
    match ctx.networkACLs p.sourceAddress p.destinationPort with
    | Except.error _ =>
      { d := d, ctx := ctx, conn := conn, action := none, claims := none
        errMsg := some "Drop it", reports := [Report.externalServiceFlow]
        stripped := false, conntrack := false }
    | Except.ok plc =>
      if plc.action = PolicyReject then
        { d := d, ctx := ctx, conn := conn, action := none, claims := none
          errMsg := some "Drop it", reports := [Report.externalServiceFlow]
          stripped := false, conntrack := false }
      else
        let conn2 : TCPConnection := { conn with state := TCPData }
        { d := { d with
            netOrig := cacheAddOrUpdate d.netOrig p.l4FlowHash conn2
            appReply := cacheAddOrUpdate d.appReply p.l4ReverseFlowHash conn2 }
          ctx := ctx, conn := conn2, action := some plc, claims := none
          errMsg := none, reports := [Report.externalServiceFlow]
          stripped := false, conntrack := false }
  else
    match parsePacketToken eng conn.auth p.tcpData with
    | Except.error e =>
      { d := d, ctx := ctx, conn := conn, action := none, claims := none
        errMsg := some ("Syn packet dropped because of invalid token " ++ e)
        reports := [Report.rejectedFlow DropReason.InvalidToken]
        stripped := false, conntrack := false }
    | Except.ok (claims, auth2) =>
      let conn2 : TCPConnection := { conn with auth := auth2 }
      match tagsGet claims.T TransmitterLabel with
      | none =>
        { d := d, ctx := ctx, conn := conn2, action := none, claims := none
          errMsg := some "TCP Authentication Option not found"
          reports := [Report.rejectedFlow DropReason.InvalidFormat]
          stripped := false, conntrack := false }
      | some _ =>
        if ¬ p.detachOk = true then
          { d := d, ctx := ctx, conn := conn2, action := none, claims := none
            errMsg := some "Syn packet dropped because of invalid format"
            reports := [Report.rejectedFlow DropReason.InvalidFormat]
            stripped := false, conntrack := false }
        else
          let claimsT := claims.T ++ [(PortNumberLabelString, toString p.destinationPort)]
          if (ctx.rejectRcvRules claimsT).isSome then
            { d := d, ctx := ctx, conn := conn2, action := none, claims := none
              errMsg := some "Connection rejected because of policy"
              reports := [Report.rejectedFlow DropReason.PolicyDrop]
              stripped := true, conntrack := false }
          else
            match ctx.acceptRcvRules claimsT with
            | some plc =>
              let conn3 : TCPConnection :=
                { conn2 with state := TCPSynReceived, flowPolicy := some plc }
              { d := { d with
                  netOrig := cacheAddOrUpdate d.netOrig p.l4FlowHash conn3
                  appReply := cacheAddOrUpdate d.appReply p.l4ReverseFlowHash conn3 }
                ctx := ctx, conn := conn3, action := some plc
                claims := some { claims with T := claimsT }, errMsg := none
                reports := [], stripped := true, conntrack := false }
            | none =>
              { d := d, ctx := ctx, conn := conn2, action := none, claims := none
                errMsg := some "No matched tags - reject"
                reports := [Report.rejectedFlow DropReason.PolicyDrop]
                stripped := true, conntrack := false }

/-- releaseFlow: remove the appOrig and sourcePort entries, program
conntrack and report the reverse external-service flow. -/
def releaseFlowCaches (d : Datapath) (p : Packet) : Datapath :=
  { d with
    appOrig := cacheRemove d.appOrig p.l4FlowHash
    sourcePort := cacheRemove d.sourcePort p.sourcePortHashApp }

/-- processNetworkSynAckPacket: external-service handling without the
option, token parse plus transmit-rule evaluation with it. -/
def processNetworkSynAckPacket (d : Datapath) (eng : TokenEngine)
    (ctx : PUContext) (conn : TCPConnection) (p : Packet) : NetOutcome :=
  if ¬ p.hasAuthOption = true then
    let flowHash := p.sourceAddress ++ ":" ++ toString p.sourcePort
    match ctx.externalIPCache.lookup flowHash with
    | some plc =>
      { d := releaseFlowCaches d p, ctx := ctx, conn := conn, action := some plc
        claims := none, errMsg := none
        reports := [Report.reverseExternalServiceFlow]
        stripped := false, conntrack := true }
    | none =>
      match ctx.applicationACLs p.sourceAddress p.sourcePort with
      | Except.error _ =>
        { d := d, ctx := ctx, conn := conn, action := none, claims := none
          errMsg := some "Drop it", reports := [Report.externalServiceFlow]
          stripped := false, conntrack := false }
      | Except.ok plc =>
        if plc.action &&& PolicyReject > 0 then
          { d := d, ctx := ctx, conn := conn, action := none, claims := none
            errMsg := some "Drop it", reports := [Report.externalServiceFlow]
            stripped := false, conntrack := false }
        else
          -- the Add cannot fail here since the Get above just missed
          let ctx2 : PUContext := { ctx with externalIPCache := (flowHash, plc) :: ctx.externalIPCache }
          let conn2 : TCPConnection := { conn with state := TCPData }
          { d := releaseFlowCaches d p, ctx := ctx2, conn := conn2, action := some plc
            claims := none, errMsg := none
            reports := [Report.reverseExternalServiceFlow]
            stripped := false, conntrack := true }
  else if p.tcpData = [] then
    { d := d, ctx := ctx, conn := conn, action := none, claims := none
      errMsg := some "SynAck packet dropped because of missing token"
      reports := [Report.rejectedFlow DropReason.MissingToken]
      stripped := false, conntrack := false }
  else
    match parsePacketToken eng conn.auth p.tcpData with
    | Except.error _ =>
      { d := d, ctx := ctx, conn := conn, action := none, claims := none
        errMsg := some "Synack packet dropped because of bad claims"
        reports := [Report.rejectedFlow DropReason.MissingToken]
        stripped := false, conntrack := false }
    | Except.ok (claims, auth2) =>
      let conn2 : TCPConnection := { conn with auth := auth2 }
      if ¬ p.detachOk = true then
        { d := d, ctx := ctx, conn := conn2, action := none, claims := none
          errMsg := some "SynAck packet dropped because of invalid format"
          reports := [Report.rejectedFlow DropReason.InvalidFormat]
          stripped := false, conntrack := false }
      else
        if d.mutualAuthorization && (ctx.rejectTxtRules claims.T).isSome then
          { d := d, ctx := ctx, conn := conn2, action := none, claims := none
            errMsg := some "Dropping because of reject rule on transmitter"
            reports := [Report.rejectedFlow DropReason.PolicyDrop]
            stripped := true, conntrack := false }
        else
          let a := ctx.acceptTxtRules claims.T
          if ¬ d.mutualAuthorization = true ∨ a.isSome then
            let conn3 : TCPConnection := { conn2 with state := TCPSynAckReceived }
            { d := { d with netReply := cacheAddOrUpdate d.netReply p.l4FlowHash conn3 }
              ctx := ctx, conn := conn3, action := a, claims := some claims
              errMsg := none, reports := [], stripped := true, conntrack := false }
          else
            { d := d, ctx := ctx, conn := conn2, action := none, claims := none
              errMsg := some "Dropping packet SYNACK at the network "
              reports := [Report.rejectedFlow DropReason.PolicyDrop]
              stripped := true, conntrack := false }

/-- processNetworkAckPacket: handshake completion on the network side;
the nonce comparison is inside parseAckToken. -/
def processNetworkAckPacket (d : Datapath) (eng : TokenEngine)
    (ctx : PUContext) (conn : TCPConnection) (p : Packet) : NetOutcome :=
  if conn.state = TCPData ∨ conn.state = TCPAckSend then
    NetOutcome.pass d ctx conn
  else if conn.state = TCPSynAckSend ∨ conn.state = TCPSynReceived then
    if ¬ p.hasAuthOption = true then
      { d := d, ctx := ctx, conn := conn, action := none, claims := none
        errMsg := some "TCP Authentication Option not found"
        reports := [Report.rejectedFlow DropReason.InvalidFormat]
        stripped := false, conntrack := false }
    else
      match parseAckToken eng conn.auth p.tcpData with
      | Except.error e =>
        { d := d, ctx := ctx, conn := conn, action := none, claims := none
          errMsg := some ("Ack packet dropped because signature validation failed " ++ e)
          reports := [Report.rejectedFlow DropReason.InvalidFormat]
          stripped := false, conntrack := false }
      | Except.ok _ =>
        if ¬ p.detachOk = true then
          { d := d, ctx := ctx, conn := conn, action := none, claims := none
            errMsg := some "Ack packet dropped because of invalid format"
            reports := [Report.rejectedFlow DropReason.InvalidFormat]
            stripped := false, conntrack := false }
        else
          { d := d, ctx := ctx, conn := { conn with state := TCPData }
            action := none, claims := none, errMsg := none
            reports := [Report.acceptedFlow], stripped := true
            conntrack := !conn.serviceConnection }
  else if conn.serviceConnection then
    NetOutcome.pass d ctx conn
  else
    { d := d, ctx := ctx, conn := conn, action := none, claims := none
      errMsg := some "Ack packet dropped - Invalid State - Duplicate"
      reports := [Report.rejectedFlow DropReason.InvalidState]
      stripped := false, conntrack := false }

/-- processNetworkTCPPacket dispatches by flag mask. -/
def processNetworkTCPPacket (d : Datapath) (eng : TokenEngine)
    (ctx : PUContext) (conn : TCPConnection) (p : Packet) : NetOutcome :=
  if p.tcpFlags &&& TCPSynAckMask = TCPSynMask then
    processNetworkSynPacket d eng ctx conn p
  else if p.tcpFlags &&& TCPSynAckMask = TCPAckMask then
    processNetworkAckPacket d eng ctx conn p
  else if p.tcpFlags &&& TCPSynAckMask = TCPSynAckMask then
    processNetworkSynAckPacket d eng ctx conn p
  else NetOutcome.pass d ctx conn

/-- PU registry lookup. -/
def pctxGet (c : List (String × PUContext)) (k : String) : Option PUContext :=
  c.lookup k

/-- PU registry AddOrUpdate. -/
def pctxAddOrUpdate (c : List (String × PUContext)) (k : String) (v : PUContext) :
    List (String × PUContext) :=
  (k, v) :: c.filter (fun kv => kv.1 != k)

/-- contextFromIP resolves a PU context from the packet IP, the default
network, and then the mark (application side) or the port (network side). -/
def contextFromIP (d : Datapath) (app : Bool) (packetIP mark port : String) :
    Except String PUContext :=
  match pctxGet d.puFromIP packetIP with
  | some pu => Except.ok pu
  | none =>
    if d.mode = Mode.LocalContainer then
      Except.error "IP must be always populated to local containers"
    else
      match pctxGet d.puFromIP DefaultNetwork with
      | some pu => Except.ok pu
      | none =>
        if app then
          match pctxGet d.puFromMark mark with
          | some pu => Except.ok pu
          | none => Except.error "PU context cannot be found using mark"
        else
          match pctxGet d.puFromPort port with
          | some pu => Except.ok pu
          | none => Except.error "PU Context cannot be found using port key"

/-- appSynRetrieveState: resolve the PU context and reuse or create the
connection for an application SYN. -/
def appSynRetrieveState (d : Datapath) (freshNonce : Bytes) (p : Packet) :
    Except String (PUContext × TCPConnection) :=
  match contextFromIP d true p.sourceAddress p.mark (toString p.sourcePort) with
  | Except.error _ => Except.error "No Context in App Processing"
  | Except.ok context =>
    let base := match cacheGet d.appOrig p.l4FlowHash with
      | some c => c
      | none => NewTCPConnection freshNonce
    Except.ok (context, { base with context := some context })

/-- appRetrieveState: appReply then appOrig; on a double miss, in
non-remote-container mode the source port is registered for later PU
lookup before the error is returned (hence the updated datapath is
returned alongside the verdict). -/
def appRetrieveState (d : Datapath) (p : Packet) :
    Datapath × Except String (PUContext × TCPConnection) :=
  match cacheGet d.appReply p.l4FlowHash with
  | some conn =>
    match conn.context with
    | none => (d, Except.error "No context found")
    | some ctx => (d, Except.ok (ctx, conn))
  | none =>
    match cacheGet d.appOrig p.l4FlowHash with
    | some conn =>
      match conn.context with
      | none => (d, Except.error "No context found")
      | some ctx => (d, Except.ok (ctx, conn))
    | none =>
      let d2 :=
        if d.mode ≠ Mode.RemoteContainer then
          match contextFromIP d true p.sourceAddress p.mark (toString p.sourcePort) with
          | Except.ok ctxt =>
            { d with puFromPort := pctxAddOrUpdate d.puFromPort (toString p.sourcePort) ctxt }
          | Except.error _ => d
        else d
      (d2, Except.error "App state not found")

/-- netSynRetrieveState: resolve the PU context by destination; when no
PU matches and the mode is not remote-container, synthesize a transient
context and return it with no connection. -/
def netSynRetrieveState (d : Datapath) (freshNonce : Bytes) (p : Packet) :
    Except String (PUContext × Option TCPConnection) :=
  match contextFromIP d false p.destinationAddress p.mark (toString p.destinationPort) with
  | Except.error _ =>
    if d.mode ≠ Mode.RemoteContainer then
      Except.ok (transientPUContext, none)
    else Except.error "No Context in net Processing"
  | Except.ok context =>
    let base := match cacheGet d.netOrig p.l4FlowHash with
      | some c => c
      | none => NewTCPConnection freshNonce
    Except.ok (context, some { base with context := some context })

/-- netSynAckRetrieveState: source-port cache only. -/
def netSynAckRetrieveState (d : Datapath) (p : Packet) :
    Except String (PUContext × TCPConnection) :=
  match cacheGet d.sourcePort p.sourcePortHashNet with
  | none => Except.error "No Synack Connection"
  | some conn =>
    match conn.context with
    | none => Except.error "No context found"
    | some ctx => Except.ok (ctx, conn)

/-- netRetrieveState: netReply then netOrig. -/
def netRetrieveState (d : Datapath) (p : Packet) :
    Except String (PUContext × TCPConnection) :=
  let found := match cacheGet d.netReply p.l4FlowHash with
    | some conn => some conn
    | none => cacheGet d.netOrig p.l4FlowHash
  match found with
  | none => Except.error "Net state not found"
  | some conn =>
    match conn.context with
    | none => Except.error "No context found"
    | some ctx => Except.ok (ctx, conn)

/-- Result of a datapath entry point: the verdict (an error means the
packet is dropped, no error means it is accepted and forwarded), the
updated datapath, whether a connection lock was taken, the collector
reports and whether the packet was stripped of option and token. -/
structure NetEntry where
  errMsg : Option String
  d : Datapath
  lockTaken : Bool
  reports : List Report
  stripped : Bool

/-- processNetworkTCPPackets: the network-side entry point.  A SYN with a
transient context and a SYN-ACK without source-port state both return
without error, before any connection lock, leaving the packet untouched. -/
def processNetworkTCPPackets (d : Datapath) (eng : TokenEngine)
    (freshNonce : Bytes) (p : Packet) : NetEntry :=
  let proceed : PUContext → TCPConnection → NetEntry := fun ctx conn =>
    if ¬ (d.service.all fun h => h.preNet) = true then
      { errMsg := some "Pre service processing failed for network packet"
        d := d, lockTaken := true, reports := [], stripped := false }
    else
      let o := processNetworkTCPPacket d eng ctx conn p
      match o.errMsg with
      | some e =>
        { errMsg := some ("Packet processing failed for network packet: " ++ e)
          d := o.d, lockTaken := true, reports := o.reports, stripped := o.stripped }
      | none =>
        if ¬ (d.service.all fun h => h.postNet) = true then
          { errMsg := some "PostPost service processing failed for network packet"
            d := o.d, lockTaken := true, reports := o.reports, stripped := o.stripped }
        else
          { errMsg := none, d := o.d, lockTaken := true
            reports := o.reports, stripped := o.stripped }
  if p.tcpFlags &&& TCPSynAckMask = TCPSynMask then
    match netSynRetrieveState d freshNonce p with
    | Except.error e =>
      { errMsg := some e, d := d, lockTaken := false, reports := [], stripped := false }
    | Except.ok (ctx, connOpt) =>
      if ctx.puType = PUType.TransientPU then
        { errMsg := none, d := d, lockTaken := false, reports := [], stripped := false }
      else
        match connOpt with
        | none =>
          -- unreachable: a found PU context always comes with a connection
          { errMsg := some "nil connection", d := d, lockTaken := false
            reports := [], stripped := false }
        | some conn => proceed ctx conn
  else if p.tcpFlags &&& TCPSynAckMask = TCPSynAckMask then
    match netSynAckRetrieveState d p with
    | Except.error _ =>
      -- SynAckPacket ignored: nil error, the packet is let through
      { errMsg := none, d := d, lockTaken := false, reports := [], stripped := false }
    | Except.ok (ctx, conn) => proceed ctx conn
  else
    match netRetrieveState d p with
    | Except.error e =>
      { errMsg := some e, d := d, lockTaken := false, reports := [], stripped := false }
    | Except.ok (ctx, conn) => proceed ctx conn

/-- Result of the application-side entry point. -/
structure AppEntry where
  errMsg : Option String
  d : Datapath
  lockTaken : Bool
  attached : Option (Bytes × Bytes)
  reports : List Report

/-- processApplicationTCPPackets: the application-side entry point.  A
SYN-ACK with no stored state passes when its mark equals the global
initial mark value minus one, and is dropped with the lookup error
otherwise. -/
def processApplicationTCPPackets (d : Datapath) (eng : TokenEngine) (now : Nat)
    (freshNonce : Bytes) (p : Packet) : AppEntry :=
  let proceed : Datapath → PUContext → TCPConnection → AppEntry := fun d1 ctx conn =>
    if ¬ (d1.service.all fun h => h.preApp) = true then
      { errMsg := some "Pre service processing failed for application packet"
        d := d1, lockTaken := true, attached := none, reports := [] }
    else
      let o := processApplicationTCPPacket d1 eng now ctx conn p
      match o.errMsg with
      | some e =>
        { errMsg := some ("Processing failed for application packet: " ++ e)
          d := o.d, lockTaken := true, attached := o.attached, reports := o.reports }
      | none =>
        if ¬ (d1.service.all fun h => h.postApp) = true then
          { errMsg := some "Post service processing failed for application packet"
            d := o.d, lockTaken := true, attached := o.attached, reports := o.reports }
        else
          { errMsg := none, d := o.d, lockTaken := true
            attached := o.attached, reports := o.reports }
  if p.tcpFlags &&& TCPSynAckMask = TCPSynMask then
    match appSynRetrieveState d freshNonce p with
    | Except.error e =>
      { errMsg := some e, d := d, lockTaken := false, attached := none, reports := [] }
    | Except.ok (ctx, conn) => proceed d ctx conn
  else if p.tcpFlags &&& TCPSynAckMask = TCPSynAckMask then
    match appRetrieveState d p with
    | (d2, Except.error e) =>
      if p.mark = toString (Initialmarkval - 1) then
        -- the SYN-ACK came through the global rule: let the packet through
        { errMsg := none, d := d2, lockTaken := false, attached := none, reports := [] }
      else
        { errMsg := some e, d := d2, lockTaken := false, attached := none, reports := [] }
    | (d2, Except.ok (ctx, conn)) => proceed d2 ctx conn
  else
    match appRetrieveState d p with
    | (d2, Except.error e) =>
      { errMsg := some e, d := d2, lockTaken := false, attached := none, reports := [] }
    | (d2, Except.ok (ctx, conn)) => proceed d2 ctx conn

/-! Concrete fixtures used by witnesses and counterexamples. -/

/-- A benign token engine for concrete evaluations: decoding yields a
claim set carrying the TransmitterLabel, nonce [5], LCL [5] and RMT [7]. -/
def dummyEngine : TokenEngine :=
  { createAndSign := fun _ _ => { token := [1, 2, 3, 4], nonce := [9, 9], err := none }
    decode := fun _ _ _ =>
      { claims := { T := [(TransmitterLabel, "peer")], LCL := [5], RMT := [7] }
        nonce := [5], cert := some [8], err := none }
    randomize := fun t => { token := t, nonce := [4, 4], err := none } }

/-- A token engine whose signing always fails. -/
def failEngine : TokenEngine :=
  { createAndSign := fun _ _ => { token := [], nonce := [], err := some "signing failed" }
    decode := fun _ _ _ =>
      { claims := { T := [], LCL := [], RMT := [] }, nonce := [], cert := none
        err := some "decode failed" }
    randomize := fun _ => { token := [], nonce := [], err := some "randomize failed" } }

/-- A host-mode datapath with empty registries and caches. -/
def baseDatapath : Datapath :=
  { mode := Mode.LocalServer
    mutualAuthorization := true
    ackSize := 4
    puFromIP := []
    puFromMark := []
    puFromPort := []
    appOrig := []
    appReply := []
    netOrig := []
    netReply := []
    sourcePort := []
    service := none }

/-- A baseline ACK packet carrying an auth option and token data. -/
def basePacket : Packet :=
  { sourceAddress := "10.0.0.1"
    destinationAddress := "10.0.0.2"
    sourcePort := 1000
    destinationPort := 80
    ipProto := 6
    tcpFlags := 16
    mark := "5"
    hasAuthOption := true
    tcpData := [0, 1]
    detachOk := true
    attachOk := true
    l4FlowHash := "fh"
    l4ReverseFlowHash := "rh"
    sourcePortHashApp := "spa"
    sourcePortHashNet := "spn" }

/-- A connection waiting for the peer ACK with stored contexts [1]/[2]. -/
def ackWaitConn : TCPConnection :=
  { NewTCPConnection [1] with
    state := TCPSynReceived
    auth := { initAuthInfo [1] with remoteContext := [2] } }

/-- C1: while the connection is in SynAckSend or SynReceived, an inbound
ACK whose decoded token has a successfully verified signature is accepted
only if the token RMT nonce equals the connection local context and the
token LCL nonce equals the remote context; on either mismatch the packet
is dropped, exactly one InvalidFormat rejection is reported, and the
connection state (and all datapath caches) stay unchanged — in particular
the state is not set to Data. -/
theorem netAck_nonce_mismatch_drops
    (d : Datapath) (eng : TokenEngine) (ctx : PUContext) (conn : TCPConnection) (p : Packet)
    (hs : conn.state = TCPSynAckSend ∨ conn.state = TCPSynReceived)
    (hopt : p.hasAuthOption = true)
    (hdec : (eng.decode true p.tcpData conn.auth.remotePublicKey).err = none) :
    (((eng.decode true p.tcpData conn.auth.remotePublicKey).claims.RMT ≠ conn.auth.localContext ∨
      (eng.decode true p.tcpData conn.auth.remotePublicKey).claims.LCL ≠ conn.auth.remoteContext) →
      (processNetworkAckPacket d eng ctx conn p).errMsg.isSome = true ∧
      (processNetworkAckPacket d eng ctx conn p).reports =
        [Report.rejectedFlow DropReason.InvalidFormat] ∧
      (processNetworkAckPacket d eng ctx conn p).conn.state = conn.state ∧
      (processNetworkAckPacket d eng ctx conn p).conn.state ≠ TCPData ∧
      (processNetworkAckPacket d eng ctx conn p).d = d) ∧
    ((processNetworkAckPacket d eng ctx conn p).errMsg = none →
      (eng.decode true p.tcpData conn.auth.remotePublicKey).claims.RMT = conn.auth.localContext ∧
      (eng.decode true p.tcpData conn.auth.remotePublicKey).claims.LCL = conn.auth.remoteContext) := by
  constructor
  · intro hmm
    have hne : ¬ ((eng.decode true p.tcpData conn.auth.remotePublicKey).claims.RMT =
        conn.auth.localContext ∧
        (eng.decode true p.tcpData conn.auth.remotePublicKey).claims.LCL =
        conn.auth.remoteContext) := by
      rcases hmm with hx | hx <;> intro hcon
      · exact hx hcon.1
      · exact hx hcon.2
    rcases hs with h | h <;>
      simp [processNetworkAckPacket, h, hopt, parseAckToken, hdec, hne]
  · intro hok
    by_cases hm : ((eng.decode true p.tcpData conn.auth.remotePublicKey).claims.RMT =
        conn.auth.localContext ∧
        (eng.decode true p.tcpData conn.auth.remotePublicKey).claims.LCL =
        conn.auth.remoteContext)
    · exact hm
    · exfalso
      rcases hs with h | h <;>
        simp [processNetworkAckPacket, h, hopt, parseAckToken, hdec, hm] at hok

/-- C1 witness: concrete mismatching ACK (token RMT [7] against local
context [1]) is dropped with InvalidFormat and the state stays
SynReceived. -/
theorem netAck_nonce_mismatch_drops_witness :
    (processNetworkAckPacket baseDatapath dummyEngine emptyPUContext ackWaitConn basePacket).errMsg.isSome = true ∧
    (processNetworkAckPacket baseDatapath dummyEngine emptyPUContext ackWaitConn basePacket).reports =
      [Report.rejectedFlow DropReason.InvalidFormat] ∧
    (processNetworkAckPacket baseDatapath dummyEngine emptyPUContext ackWaitConn basePacket).conn.state =
      ackWaitConn.state := by
  have h := netAck_nonce_mismatch_drops baseDatapath dummyEngine emptyPUContext ackWaitConn
    basePacket (Or.inr rfl) rfl rfl
  have h2 := h.1 (Or.inl (by decide))
  exact ⟨h2.1, h2.2.1, h2.2.2.1⟩

/-- C2: the code contradicts the claim (and the spec's stated intent).
When CreateAndSign fails, createSynPacketToken and createSynAckPacketToken
return a nil error together with an empty token, so the calling handler
does not drop the packet: it proceeds and attaches an empty token.  This
theorem evaluates the code at the failing input: a token engine whose
signing fails, an application SYN-ACK in state SynReceived. -/
theorem createToken_failure_returns_ok_empty :
    (createSynPacketToken failEngine 0 emptyPUContext (initAuthInfo [1])).result =
      Except.ok [] ∧
    (createSynAckPacketToken failEngine emptyPUContext (initAuthInfo [1])).result =
      Except.ok [] ∧
    (processApplicationSynAckPacket baseDatapath failEngine emptyPUContext
      { NewTCPConnection [1] with state := TCPSynReceived } basePacket).errMsg = none ∧
    (processApplicationSynAckPacket baseDatapath failEngine emptyPUContext
      { NewTCPConnection [1] with state := TCPSynReceived } basePacket).attached =
      some (createTCPAuthenticationOption [], []) := by
  refine ⟨rfl, rfl, rfl, rfl⟩

/-- A SYN-ACK packet from the network. -/
def synAckNetPacket : Packet := { basePacket with tcpFlags := 18 }

/-- C3 counterexample: with an empty source-port cache, the network
entry point returns a nil verdict for an inbound SYN-ACK — the packet is
accepted and forwarded, not dropped as the claim states. -/
theorem netSynAck_cache_miss_passes_cex :
    (processNetworkTCPPackets baseDatapath dummyEngine [1] synAckNetPacket).errMsg = none ∧
    (processNetworkTCPPackets baseDatapath dummyEngine [1] synAckNetPacket).reports = [] := by
  exact ⟨rfl, rfl⟩

/-- C3 (amended): an inbound SYN-ACK whose source-port hash has no entry
in the source_port cache is skipped silently: the entry point returns no
error (the packet is passed on unmodified), emits no report, takes no
connection lock and changes no state. -/
theorem netSynAck_cache_miss_silent_pass
    (d : Datapath) (eng : TokenEngine) (freshNonce : Bytes) (p : Packet)
    (hf : p.tcpFlags &&& TCPSynAckMask = TCPSynAckMask)
    (hm : cacheGet d.sourcePort p.sourcePortHashNet = none) :
    (processNetworkTCPPackets d eng freshNonce p).errMsg = none ∧
    (processNetworkTCPPackets d eng freshNonce p).d = d ∧
    (processNetworkTCPPackets d eng freshNonce p).reports = [] ∧
    (processNetworkTCPPackets d eng freshNonce p).lockTaken = false ∧
    (processNetworkTCPPackets d eng freshNonce p).stripped = false := by
  have hf18 : p.tcpFlags &&& 18 = 18 := by simpa [TCPSynAckMask] using hf
  simp [processNetworkTCPPackets, hf18, netSynAckRetrieveState, hm,
    TCPSynAckMask, TCPSynMask]

/-- C3 witness: the amended theorem applied at the concrete empty-cache
datapath. -/
theorem netSynAck_cache_miss_silent_pass_witness :
    (processNetworkTCPPackets baseDatapath dummyEngine [1] synAckNetPacket).errMsg = none ∧
    (processNetworkTCPPackets baseDatapath dummyEngine [1] synAckNetPacket).d = baseDatapath := by
  have h := netSynAck_cache_miss_silent_pass baseDatapath dummyEngine [1] synAckNetPacket
    rfl rfl
  exact ⟨h.1, h.2.1⟩

/-- C4: in both policy evaluations over token claims the reject rule set
is consulted first; hence when a claim set matches both a reject and an
accept rule, the packet is dropped with PolicyDrop.  For an inbound SYN
this also leaves net_orig (and the connection state) untouched; for an
inbound SYN-ACK under mutual authorization it leaves net_reply untouched. -/
theorem rejectRules_dominate_accept :
    (∀ (d : Datapath) (eng : TokenEngine) (ctx : PUContext) (conn : TCPConnection)
       (p : Packet) (rid : String) (plcR plcA : FlowPolicy),
      p.hasAuthOption = true →
      (eng.decode false p.tcpData conn.auth.remotePublicKey).err = none →
      tagsGet (eng.decode false p.tcpData conn.auth.remotePublicKey).claims.T
        TransmitterLabel = some rid →
      p.detachOk = true →
      ctx.rejectRcvRules ((eng.decode false p.tcpData conn.auth.remotePublicKey).claims.T ++
        [(PortNumberLabelString, toString p.destinationPort)]) = some plcR →
      ctx.acceptRcvRules ((eng.decode false p.tcpData conn.auth.remotePublicKey).claims.T ++
        [(PortNumberLabelString, toString p.destinationPort)]) = some plcA →
      (processNetworkSynPacket d eng ctx conn p).errMsg.isSome = true ∧
      (processNetworkSynPacket d eng ctx conn p).reports =
        [Report.rejectedFlow DropReason.PolicyDrop] ∧
      (processNetworkSynPacket d eng ctx conn p).d.netOrig = d.netOrig ∧
      (processNetworkSynPacket d eng ctx conn p).d.appReply = d.appReply ∧
      (processNetworkSynPacket d eng ctx conn p).conn.state = conn.state ∧
      (processNetworkSynPacket d eng ctx conn p).action = none) ∧
    (∀ (d : Datapath) (eng : TokenEngine) (ctx : PUContext) (conn : TCPConnection)
       (p : Packet) (rid : String) (plcR plcA : FlowPolicy),
      d.mutualAuthorization = true →
      p.hasAuthOption = true →
      p.tcpData ≠ [] →
      (eng.decode false p.tcpData conn.auth.remotePublicKey).err = none →
      tagsGet (eng.decode false p.tcpData conn.auth.remotePublicKey).claims.T
        TransmitterLabel = some rid →
      p.detachOk = true →
      ctx.rejectTxtRules (eng.decode false p.tcpData conn.auth.remotePublicKey).claims.T =
        some plcR →
      ctx.acceptTxtRules (eng.decode false p.tcpData conn.auth.remotePublicKey).claims.T =
        some plcA →
      (processNetworkSynAckPacket d eng ctx conn p).errMsg.isSome = true ∧
      (processNetworkSynAckPacket d eng ctx conn p).reports =
        [Report.rejectedFlow DropReason.PolicyDrop] ∧
      (processNetworkSynAckPacket d eng ctx conn p).d.netReply = d.netReply ∧
      (processNetworkSynAckPacket d eng ctx conn p).action = none) := by
  constructor
  · intro d eng ctx conn p rid plcR plcA hopt hdec hlab hdet hrej hacc
    simp [processNetworkSynPacket, parsePacketToken, hopt, hdec, hlab, hdet, hrej, hacc]
  · intro d eng ctx conn p rid plcR plcA hmut hopt hdata hdec hlab hdet hrej hacc
    simp [processNetworkSynAckPacket, parsePacketToken, hmut, hopt, hdata, hdec, hlab,
      hdet, hrej, hacc]

/-- A rule set matching every claim set with the given policy. -/
def constRules (plc : FlowPolicy) : RuleSet := fun _ => some plc

/-- A PU context whose receive and transmit rules both reject and accept. -/
def bothMatchCtx : PUContext :=
  { emptyPUContext with
    rejectRcvRules := constRules { action := PolicyReject, policyID := "r1" }
    acceptRcvRules := constRules { action := PolicyAccept, policyID := "a1" }
    rejectTxtRules := constRules { action := PolicyReject, policyID := "r2" }
    acceptTxtRules := constRules { action := PolicyAccept, policyID := "a2" } }

/-- An inbound SYN packet carrying a token. -/
def synNetPacket : Packet := { basePacket with tcpFlags := 2 }

/-- C4 witness: with rules matching both ways, the concrete inbound SYN
is dropped with PolicyDrop and net_orig stays empty. -/
theorem rejectRules_dominate_accept_witness :
    (processNetworkSynPacket baseDatapath dummyEngine bothMatchCtx ackWaitConn
      synNetPacket).errMsg.isSome = true ∧
    (processNetworkSynPacket baseDatapath dummyEngine bothMatchCtx ackWaitConn
      synNetPacket).d.netOrig = baseDatapath.netOrig := by
  have h := rejectRules_dominate_accept.1 baseDatapath dummyEngine bothMatchCtx ackWaitConn
    synNetPacket "peer" { action := PolicyReject, policyID := "r1" }
    { action := PolicyAccept, policyID := "a1" } rfl rfl rfl rfl rfl rfl
  exact ⟨h.1, h.2.2.1⟩

/-- C5 counterexample: a host-mode inbound SYN with no matching PU and an
attached auth option plus token payload is passed through with no
stripping performed (the claim states the auth data is stripped). -/
theorem transientPU_no_strip_cex :
    (processNetworkTCPPackets baseDatapath dummyEngine [1] synNetPacket).stripped = false ∧
    (processNetworkTCPPackets baseDatapath dummyEngine [1] synNetPacket).errMsg = none ∧
    synNetPacket.hasAuthOption = true ∧
    synNetPacket.tcpData ≠ [] := by
  refine ⟨rfl, rfl, rfl, by decide⟩

/-- C5 (amended): for an inbound SYN with no matching PU context in a
non-remote-container mode, the resolver returns a transient PUContext and
a nil connection, and the entry point passes the packet unmodified (no
option or token is stripped) without taking a connection lock, creating
connection state, mutating any cache or emitting a report. -/
theorem transientPU_pass_unmodified
    (d : Datapath) (eng : TokenEngine) (freshNonce : Bytes) (p : Packet) (e : String)
    (hf : p.tcpFlags &&& TCPSynAckMask = TCPSynMask)
    (hc : contextFromIP d false p.destinationAddress p.mark (toString p.destinationPort) =
      Except.error e)
    (hm : d.mode ≠ Mode.RemoteContainer) :
    netSynRetrieveState d freshNonce p = Except.ok (transientPUContext, none) ∧
    (processNetworkTCPPackets d eng freshNonce p).errMsg = none ∧
    (processNetworkTCPPackets d eng freshNonce p).d = d ∧
    (processNetworkTCPPackets d eng freshNonce p).lockTaken = false ∧
    (processNetworkTCPPackets d eng freshNonce p).stripped = false ∧
    (processNetworkTCPPackets d eng freshNonce p).reports = [] := by
  have h1 : netSynRetrieveState d freshNonce p = Except.ok (transientPUContext, none) := by
    unfold netSynRetrieveState
    rw [hc]
    simp [hm]
  have hf2 : p.tcpFlags &&& 18 = 2 := by simpa [TCPSynAckMask, TCPSynMask] using hf
  refine ⟨h1, ?_⟩
  simp [processNetworkTCPPackets, TCPSynAckMask, TCPSynMask, hf2, h1,
    transientPUContext, emptyPUContext]

/-- C5 witness: the amended theorem applied at the concrete host-mode
datapath with empty registries. -/
theorem transientPU_pass_unmodified_witness :
    netSynRetrieveState baseDatapath [1] synNetPacket = Except.ok (transientPUContext, none) ∧
    (processNetworkTCPPackets baseDatapath dummyEngine [1] synNetPacket).errMsg = none := by
  have h := transientPU_pass_unmodified baseDatapath dummyEngine [1] synNetPacket
    "PU Context cannot be found using port key" rfl rfl (by decide)
  exact ⟨h.1, h.2.1⟩

/-- C6: the application-side ACK state machine: Data passes unchanged;
in SynAckReceived or SynSend the handler signs both nonces, errors when
the token length differs from ackSize, otherwise attaches option and
token, moves to AckSend and programs conntrack exactly for non-service
flows whose source and destination addresses differ; in AckSend it
removes the source_port entry and moves to Data; the remaining states
(SynReceived, SynAckSend) are dropped. -/
theorem appAck_state_machine
    (d : Datapath) (eng : TokenEngine) (ctx : PUContext) (conn : TCPConnection) (p : Packet) :
    (conn.state = TCPData →
      processApplicationAckPacket d eng ctx conn p = AppOutcome.pass d ctx conn) ∧
    ((conn.state = TCPSynAckReceived ∨ conn.state = TCPSynSend) →
      (eng.createAndSign true
        { T := [], LCL := conn.auth.localContext, RMT := conn.auth.remoteContext }).err = none →
      (((eng.createAndSign true
          { T := [], LCL := conn.auth.localContext, RMT := conn.auth.remoteContext }).token.length ≠
            d.ackSize →
        (processApplicationAckPacket d eng ctx conn p).errMsg.isSome = true ∧
        (processApplicationAckPacket d eng ctx conn p).conn.state = conn.state) ∧
       ((eng.createAndSign true
          { T := [], LCL := conn.auth.localContext, RMT := conn.auth.remoteContext }).token.length =
            d.ackSize →
        p.attachOk = true →
        (processApplicationAckPacket d eng ctx conn p).errMsg = none ∧
        (processApplicationAckPacket d eng ctx conn p).conn.state = TCPAckSend ∧
        (processApplicationAckPacket d eng ctx conn p).attached =
          some (createTCPAuthenticationOption [],
            (eng.createAndSign true
              { T := [], LCL := conn.auth.localContext, RMT := conn.auth.remoteContext }).token) ∧
        (processApplicationAckPacket d eng ctx conn p).conntrack =
          (!conn.serviceConnection && (p.sourceAddress != p.destinationAddress))))) ∧
    (conn.state = TCPAckSend →
      (processApplicationAckPacket d eng ctx conn p).errMsg = none ∧
      (processApplicationAckPacket d eng ctx conn p).conn.state = TCPData ∧
      (processApplicationAckPacket d eng ctx conn p).d.sourcePort =
        cacheRemove d.sourcePort p.sourcePortHashApp) ∧
    ((conn.state = TCPSynReceived ∨ conn.state = TCPSynAckSend) →
      (processApplicationAckPacket d eng ctx conn p).errMsg.isSome = true ∧
      (processApplicationAckPacket d eng ctx conn p).conn.state = conn.state) := by
  refine ⟨?_, ?_, ?_, ?_⟩
  · intro h
    simp [processApplicationAckPacket, h]
  · intro hs herr
    constructor
    · intro hlen
      rcases hs with h | h <;>
        simp [processApplicationAckPacket, h, createAckPacketToken, herr, hlen]
    · intro hlen hatt
      rcases hs with h | h <;>
        simp [processApplicationAckPacket, h, createAckPacketToken, herr, hlen, hatt]
  · intro h
    simp [processApplicationAckPacket, h]
  · intro hs
    rcases hs with h | h <;>
      simp [processApplicationAckPacket, h]

/-- C6 witness: a connection in SynAckReceived with the dummy engine
(token of length 4 = ackSize) completes: no error, state AckSend, token
attached, conntrack programmed. -/
theorem appAck_state_machine_witness :
    (processApplicationAckPacket baseDatapath dummyEngine emptyPUContext
      { ackWaitConn with state := TCPSynAckReceived } basePacket).errMsg = none ∧
    (processApplicationAckPacket baseDatapath dummyEngine emptyPUContext
      { ackWaitConn with state := TCPSynAckReceived } basePacket).conn.state = TCPAckSend := by
  have h := (appAck_state_machine baseDatapath dummyEngine emptyPUContext
    { ackWaitConn with state := TCPSynAckReceived } basePacket).2.1
    (Or.inl rfl) rfl
  have h2 := h.2 rfl rfl
  exact ⟨h2.1, h2.2.1⟩

/-- C7: an application SYN whose destination ip:port is in the PU's
external IP cache records the connection in app_orig and source_port,
returns the cached policy, and leaves the packet, the PU context (no
token creation) and the connection untouched. -/
theorem appSyn_externalIPCache_shortcircuit
    (d : Datapath) (eng : TokenEngine) (now : Nat) (ctx : PUContext)
    (conn : TCPConnection) (p : Packet) (plc : FlowPolicy)
    (h : ctx.externalIPCache.lookup
      (p.destinationAddress ++ ":" ++ toString p.destinationPort) = some plc) :
    (processApplicationSynPacket d eng now ctx conn p).action = some plc ∧
    (processApplicationSynPacket d eng now ctx conn p).errMsg = none ∧
    (processApplicationSynPacket d eng now ctx conn p).attached = none ∧
    (processApplicationSynPacket d eng now ctx conn p).ctx = ctx ∧
    (processApplicationSynPacket d eng now ctx conn p).conn = conn ∧
    (processApplicationSynPacket d eng now ctx conn p).d.appOrig =
      cacheAddOrUpdate d.appOrig p.l4FlowHash conn ∧
    (processApplicationSynPacket d eng now ctx conn p).d.sourcePort =
      cacheAddOrUpdate d.sourcePort p.sourcePortHashApp conn := by
  simp [processApplicationSynPacket, h]

/-- A PU context that knows destination 10.0.0.2:80 as an external
service. -/
def extCacheCtx : PUContext :=
  { emptyPUContext with
    externalIPCache := [("10.0.0.2:80", { action := PolicyAccept, policyID := "ext" })] }

/-- C7 witness: the concrete cached destination returns the cached
policy and attaches nothing. -/
theorem appSyn_externalIPCache_shortcircuit_witness :
    (processApplicationSynPacket baseDatapath dummyEngine 0 extCacheCtx ackWaitConn
      synNetPacket).action = some { action := PolicyAccept, policyID := "ext" } ∧
    (processApplicationSynPacket baseDatapath dummyEngine 0 extCacheCtx ackWaitConn
      synNetPacket).attached = none := by
  have h := appSyn_externalIPCache_shortcircuit baseDatapath dummyEngine 0 extCacheCtx
    ackWaitConn synNetPacket { action := PolicyAccept, policyID := "ext" } rfl
  exact ⟨h.1, h.2.2.1⟩

/-- A PU context holding a cached, unexpired SYN token. -/
def reuseCtx : PUContext :=
  { emptyPUContext with synToken := [1, 2, 3], synExpiration := 10 }

/-- C8 counterexample: local_context is NOT stable after connection
creation: reusing the cached SYN token (as happens for a retransmitted
SYN within the 500 ms window) overwrites the connection's local_context
with the re-randomized nonce. -/
theorem localContext_rewritten_cex :
    (createSynPacketToken dummyEngine 0 reuseCtx (initAuthInfo [1])).auth.localContext ≠
      (initAuthInfo [1]).localContext := by
  decide

/-- C8 (amended): local_context is assigned at connection creation,
before the first outbound SYN, but is rewritten on every SYN token
creation or cached-token reuse (the engine nonce is stored each time) and
on every SYN-ACK token creation; remote_context starts empty and is
(re)assigned on every successful parse of a peer SYN or SYN-ACK token,
each parse storing the decoded nonce; neither token creator touches
remote_context and parsePacketToken does not touch local_context. -/
theorem auth_context_assignment :
    (∀ n : Bytes, (NewTCPConnection n).auth.localContext = n ∧
      (NewTCPConnection n).auth.remoteContext = [] ∧
      (NewTCPConnection n).state = TCPSynSend) ∧
    (∀ (eng : TokenEngine) (now : Nat) (ctx : PUContext) (auth : AuthInfo),
      now < ctx.synExpiration → ctx.synToken ≠ [] →
      (eng.randomize ctx.synToken).err = none →
      (createSynPacketToken eng now ctx auth).auth.localContext =
        (eng.randomize ctx.synToken).nonce ∧
      (createSynPacketToken eng now ctx auth).auth.remoteContext = auth.remoteContext) ∧
    (∀ (eng : TokenEngine) (now : Nat) (ctx : PUContext) (auth : AuthInfo),
      ¬ (now < ctx.synExpiration ∧ ctx.synToken ≠ []) →
      (createSynPacketToken eng now ctx auth).auth.localContext =
        (eng.createAndSign false { T := ctx.identity, LCL := [], RMT := [] }).nonce ∧
      (createSynPacketToken eng now ctx auth).auth.remoteContext = auth.remoteContext) ∧
    (∀ (eng : TokenEngine) (ctx : PUContext) (auth : AuthInfo),
      (createSynAckPacketToken eng ctx auth).auth.localContext =
        (eng.createAndSign false
          { T := ctx.identity, LCL := [], RMT := auth.remoteContext }).nonce ∧
      (createSynAckPacketToken eng ctx auth).auth.remoteContext = auth.remoteContext) ∧
    (∀ (eng : TokenEngine) (auth : AuthInfo) (data : Bytes)
       (claims : ConnectionClaims) (auth2 : AuthInfo),
      parsePacketToken eng auth data = Except.ok (claims, auth2) →
      auth2.remoteContext = (eng.decode false data auth.remotePublicKey).nonce ∧
      auth2.localContext = auth.localContext) := by
  refine ⟨?_, ?_, ?_, ?_, ?_⟩
  · intro n
    exact ⟨rfl, rfl, rfl⟩
  · intro eng now ctx auth h1 h2 h3
    simp [createSynPacketToken, h1, h2, h3]
  · intro eng now ctx auth h
    rcases hs : (eng.createAndSign false { T := ctx.identity, LCL := [], RMT := [] }).err with
      _ | e <;>
      simp [createSynPacketToken, createSynPacketTokenFresh, h, hs]
  · intro eng ctx auth
    rcases hs : (eng.createAndSign false
        { T := ctx.identity, LCL := [], RMT := auth.remoteContext }).err with _ | e <;>
      simp [createSynAckPacketToken, hs]
  · intro eng auth data claims auth2 hp
    simp only [parsePacketToken] at hp
    rcases herr : (eng.decode false data auth.remotePublicKey).err with _ | e
    · rw [herr] at hp
      rcases hlab : tagsGet (eng.decode false data auth.remotePublicKey).claims.T
          TransmitterLabel with _ | rid
      · rw [hlab] at hp
        cases hp
      · rw [hlab] at hp
        rw [Except.ok.injEq, Prod.mk.injEq] at hp
        rw [← hp.2]
        exact ⟨rfl, rfl⟩
    · rw [herr] at hp
      cases hp

/-- C8 witness: the amended theorem's token-reuse clause applied at the
concrete cached-token context rewrites local_context to the randomize
nonce. -/
theorem auth_context_assignment_witness :
    (createSynPacketToken dummyEngine 0 reuseCtx (initAuthInfo [1])).auth.localContext =
      [4, 4] := by
  have h := (auth_context_assignment.2.1 dummyEngine 0 reuseCtx (initAuthInfo [1])
    (by decide) (by decide) rfl).1
  exact h.trans rfl

/-- C9: the cached SYN token is reused exactly while its expiration
(creation time plus 500 ms) has not passed and the cached bytes are
non-empty: on reuse the nonce is re-randomized (the randomized token is
returned and re-cached, and its fresh nonce becomes local_context) and
the window is not extended; otherwise a new token is signed, its nonce
stored, and the 500 ms window restarts from now. -/
theorem synToken_cache_reuse
    (eng : TokenEngine) (now : Nat) (ctx : PUContext) (auth : AuthInfo) :
    (now < ctx.synExpiration → ctx.synToken ≠ [] →
      (eng.randomize ctx.synToken).err = none →
      (createSynPacketToken eng now ctx auth).result =
        Except.ok (eng.randomize ctx.synToken).token ∧
      (createSynPacketToken eng now ctx auth).ctx.synToken =
        (eng.randomize ctx.synToken).token ∧
      (createSynPacketToken eng now ctx auth).ctx.synExpiration = ctx.synExpiration ∧
      (createSynPacketToken eng now ctx auth).auth.localContext =
        (eng.randomize ctx.synToken).nonce) ∧
    (¬ (now < ctx.synExpiration ∧ ctx.synToken ≠ []) →
      (eng.createAndSign false { T := ctx.identity, LCL := [], RMT := [] }).err = none →
      (createSynPacketToken eng now ctx auth).result =
        Except.ok (eng.createAndSign false { T := ctx.identity, LCL := [], RMT := [] }).token ∧
      (createSynPacketToken eng now ctx auth).ctx.synToken =
        (eng.createAndSign false { T := ctx.identity, LCL := [], RMT := [] }).token ∧
      (createSynPacketToken eng now ctx auth).ctx.synExpiration = now + 500 ∧
      (createSynPacketToken eng now ctx auth).auth.localContext =
        (eng.createAndSign false { T := ctx.identity, LCL := [], RMT := [] }).nonce) := by
  constructor
  · intro h1 h2 h3
    simp [createSynPacketToken, h1, h2, h3]
  · intro h hsig
    simp [createSynPacketToken, createSynPacketTokenFresh, h, hsig]

/-- C9 witness: reuse inside the window at the concrete cached-token
context, and fresh creation with a restarted window outside it. -/
theorem synToken_cache_reuse_witness :
    (createSynPacketToken dummyEngine 0 reuseCtx (initAuthInfo [1])).result =
      Except.ok [1, 2, 3] ∧
    (createSynPacketToken dummyEngine 20 reuseCtx (initAuthInfo [1])).ctx.synExpiration =
      520 := by
  constructor
  · exact ((synToken_cache_reuse dummyEngine 0 reuseCtx (initAuthInfo [1])).1
      (by decide) (by decide) rfl).1.trans rfl
  · exact ((synToken_cache_reuse dummyEngine 20 reuseCtx (initAuthInfo [1])).2
      (by decide) rfl).2.2.1

/-- C10: an application SYN-ACK whose flow is in neither app_reply nor
app_orig is passed with no error, no lock and no connection-cache change
when its mark equals Initialmarkval minus one; for any other mark the
lookup error is returned and the packet is dropped. -/
theorem appSynAck_missing_state_mark
    (d : Datapath) (eng : TokenEngine) (now : Nat) (freshNonce : Bytes) (p : Packet)
    (hf : p.tcpFlags &&& TCPSynAckMask = TCPSynAckMask)
    (h1 : cacheGet d.appReply p.l4FlowHash = none)
    (h2 : cacheGet d.appOrig p.l4FlowHash = none) :
    (p.mark = toString (Initialmarkval - 1) →
      (processApplicationTCPPackets d eng now freshNonce p).errMsg = none ∧
      (processApplicationTCPPackets d eng now freshNonce p).lockTaken = false ∧
      (processApplicationTCPPackets d eng now freshNonce p).attached = none ∧
      (processApplicationTCPPackets d eng now freshNonce p).d.appOrig = d.appOrig ∧
      (processApplicationTCPPackets d eng now freshNonce p).d.appReply = d.appReply ∧
      (processApplicationTCPPackets d eng now freshNonce p).d.netOrig = d.netOrig ∧
      (processApplicationTCPPackets d eng now freshNonce p).d.netReply = d.netReply ∧
      (processApplicationTCPPackets d eng now freshNonce p).d.sourcePort = d.sourcePort) ∧
    (p.mark ≠ toString (Initialmarkval - 1) →
      (processApplicationTCPPackets d eng now freshNonce p).errMsg =
        some "App state not found" ∧
      (processApplicationTCPPackets d eng now freshNonce p).lockTaken = false) := by
  have hf18 : p.tcpFlags &&& 18 = 18 := by simpa [TCPSynAckMask] using hf
  have hret : appRetrieveState d p =
      (if d.mode ≠ Mode.RemoteContainer then
          match contextFromIP d true p.sourceAddress p.mark (toString p.sourcePort) with
          | Except.ok ctxt =>
            { d with puFromPort := pctxAddOrUpdate d.puFromPort (toString p.sourcePort) ctxt }
          | Except.error _ => d
        else d, Except.error "App state not found") := by
    unfold appRetrieveState
    rw [h1, h2]
  constructor
  · intro hmk
    have hentry : processApplicationTCPPackets d eng now freshNonce p =
        { errMsg := none, d := (appRetrieveState d p).1, lockTaken := false
          attached := none, reports := [] } := by
      simp [processApplicationTCPPackets, TCPSynAckMask, TCPSynMask, hf18, hret, hmk]
    rw [hentry]
    refine ⟨rfl, rfl, rfl, ?_, ?_, ?_, ?_, ?_⟩ <;>
      (rw [hret]; dsimp only; split <;> first | rfl | (split <;> rfl))
  · intro hmk
    have hentry : processApplicationTCPPackets d eng now freshNonce p =
        { errMsg := some "App state not found", d := (appRetrieveState d p).1
          lockTaken := false, attached := none, reports := [] } := by
      simp [processApplicationTCPPackets, TCPSynAckMask, TCPSynMask, hf18, hret, hmk]
    rw [hentry]
    exact ⟨rfl, rfl⟩

/-- C10 witness: the concrete unknown SYN-ACK with mark 99 passes; the
same packet with mark 5 is dropped with the lookup error. -/
theorem appSynAck_missing_state_mark_witness :
    (processApplicationTCPPackets baseDatapath dummyEngine 0 [1]
      { synAckNetPacket with mark := "99" }).errMsg = none ∧
    (processApplicationTCPPackets baseDatapath dummyEngine 0 [1]
      synAckNetPacket).errMsg = some "App state not found" := by
  constructor
  · exact ((appSynAck_missing_state_mark baseDatapath dummyEngine 0 [1]
      { synAckNetPacket with mark := "99" } rfl rfl rfl).1 rfl).1
  · exact ((appSynAck_missing_state_mark baseDatapath dummyEngine 0 [1]
      synAckNetPacket rfl rfl rfl).2 (by decide)).1

end Trireme
